import Mathlib

/-!
Shallow embedding of the decision-and-lifecycle pipeline of a
sentiment-driven trading orchestrator (TypeScript source), together with
proofs about its behaviour.

Numeric values (sentiment scores, confidence, capital, timestamps in
milliseconds, balances) are modelled as rationals (`ℚ`): the source uses
JavaScript numbers / `BigInt` wei amounts, and the properties under study
are stated up to floating tolerance, so the idealised exact arithmetic is
the intended semantics.  Maps (`Map<string, ...>`) are modelled as
functions into `Option`, and `Set<string>` as `Finset String`.  External
effects (LLM backend calls, on-chain balance reads, swap submission) are
modelled as explicit parameters carrying the value the external call
produced (`Option` when the call can fail).
-/

namespace SocialSage

/-- Qualitative market condition, from `VeniceAnalysis.marketCondition`
(`'bullish' | 'bearish' | 'neutral'`). -/
inductive MarketCondition where
  | bullish
  | bearish
  | neutral
deriving DecidableEq, Repr

/-- Structured market judgment produced by the analysis backend
(`VeniceAnalysis` in `venice-ai.ts`). -/
structure VeniceAnalysis where
  sentiment : ℚ
  confidence : ℚ
  reasoning : List String
  marketCondition : MarketCondition
  suggestedActions : List String
deriving DecidableEq, Repr

/-- One social post's sentiment record (`TweetSentiment` in
`twitter-sentiment.ts`). -/
structure TweetSentiment where
  text : String
  sentiment : ℚ
  engagement : ℚ
  timestamp : ℚ
deriving DecidableEq, Repr

/-- A raw mock tweet (`MockTweet` in `twitter-sentiment.ts`). -/
structure MockTweet where
  text : String
  retweets : ℚ
  likes : ℚ
  timestamp : ℚ
deriving DecidableEq, Repr

/-- `MarketAnalysis` (in `twitter-sentiment.ts`) extends `VeniceAnalysis`
with the analysed tweets, their total engagement and a timestamp. -/
structure MarketAnalysis extends VeniceAnalysis where
  tweets : List TweetSentiment
  totalEngagement : ℚ
  timestamp : ℚ
deriving DecidableEq, Repr

/-- `TwitterSentimentAnalyzer.getTweetEngagement`: engagement of a tweet is
retweets plus likes. -/
def getTweetEngagement (t : MockTweet) : ℚ :=
  t.retweets + t.likes

/-- Fallback analysis returned by `VeniceAI.analyzeSentimentAndMarket` when
the backend call or response parsing fails. -/
def fallbackAnalysis : VeniceAnalysis :=
  { sentiment := 0
    confidence := 1/2
    reasoning := ["Error in AI analysis, using fallback"]
    marketCondition := MarketCondition.neutral
    suggestedActions := ["Wait for more data"] }

/-- `VeniceAI.analyzeSentimentAndMarket token tweets`: queries the LLM
backend and parses its structured response; on any backend or parse
failure it returns the neutral low-confidence fallback.  The external
call's outcome is the `backend` parameter (`none` models a failed call or
an unparsable response; `some a` a successfully parsed analysis). -/
def analyzeSentimentAndMarket (_posts : List (String × ℚ))
    (backend : Option VeniceAnalysis) : VeniceAnalysis :=
  match backend with
  | some a => a
  | none => fallbackAnalysis

/-- `TwitterSentimentAnalyzer.analyzeSentiment`: looks up the mock tweets
for the symbol (`tweets` parameter; the empty list models an unknown
symbol), runs the backend analysis over them, and tags every tweet with
the backend-determined sentiment. -/
def analyzeSentiment (tweets : List MockTweet)
    (backend : Option VeniceAnalysis) : List TweetSentiment :=
  let analysis := analyzeSentimentAndMarket
    (tweets.map (fun t => (t.text, getTweetEngagement t))) backend
  tweets.map (fun t =>
    { text := t.text
      sentiment := analysis.sentiment
      engagement := getTweetEngagement t
      timestamp := t.timestamp })

/-- `TwitterSentimentAnalyzer.getMarketAnalysis`: analyses the symbol's
tweets; if the resulting tweet list is empty it returns `null` (no
judgment); otherwise it re-runs the backend analysis and packages the
result with the tweets and total engagement. -/
def getMarketAnalysis (tweets : List MockTweet)
    (backend : Option VeniceAnalysis) (now : ℚ) : Option MarketAnalysis :=
  let ts := analyzeSentiment tweets backend
  if ts.length = 0 then
    none
  else
    let analysis := analyzeSentimentAndMarket
      (ts.map (fun t => (t.text, t.engagement))) backend
    some { analysis with
      tweets := ts
      totalEngagement := (ts.map (fun t => t.engagement)).sum
      timestamp := now }

/-- An opportunity handed to the `Judge` by
`AgentSpawner.evaluateOpportunity` (sentiment strategy): the judgment's
confidence and sentiment plus a derived risk score. -/
structure Opportunity where
  token : String
  risk : ℚ
  confidence : ℚ
  sentiment : ℚ
  marketCondition : MarketCondition
deriving DecidableEq, Repr

/-- `EvaluationParams` for `Judge.evaluateOpportunity` (`judge.ts`);
`strategy` is always `'sentiment'` at the call site and is omitted. -/
structure EvaluationParams where
  capitalRequired : ℚ
  opportunity : Opportunity
deriving DecidableEq, Repr

/-- `EvaluationResult` (`judge.ts`), with `recommendedConfig` flattened. -/
structure EvaluationResult where
  shouldSpawn : Bool
  confidence : ℚ
  reasons : List String
  capital : ℚ
  maxSlippage : ℚ
  stopLoss : ℚ
  targetProfit : ℚ
deriving DecidableEq, Repr

/-- `Judge.evaluateOpportunity` (`judge.ts`, lines 30-57): the body is a
placeholder that ignores the opportunity entirely and returns a fixed
evaluation with `shouldSpawn = true`, `confidence = 0.78` and
`capital = params.capitalRequired`. -/
def Judge.evaluateOpportunity (params : EvaluationParams) : EvaluationResult :=
  { shouldSpawn := true
    confidence := 78/100
    reasons :=
      [ "High APY with acceptable risk level"
      , "Sufficient liquidity in target pool"
      , "Historical success rate above threshold" ]
    capital := params.capitalRequired
    maxSlippage := 8/10
    stopLoss := 5
    targetProfit := 15 }

/-- `SpawnConfig` (`agent-spawner.ts`). -/
structure SpawnConfig where
  minSentiment : ℚ
  minEngagement : ℚ
  maxAgentsPerToken : ℕ
  minCapital : ℚ
  maxCapital : ℚ
deriving DecidableEq, Repr

/-- The default `SpawnConfig` from the `AgentSpawner` constructor. -/
def defaultSpawnConfig : SpawnConfig :=
  { minSentiment := 3/10
    minEngagement := 1000
    maxAgentsPerToken := 3
    minCapital := 1/10
    maxCapital := 1 }

/-- `AgentSpawner.calculatePositionSize`: scales the position size
linearly with confidence, mapping confidence 0.7 to `minCapital` and
confidence 1.0 to `maxCapital`; there is no clamping. -/
def calculatePositionSize (cfg : SpawnConfig) (confidence : ℚ) : ℚ :=
  cfg.minCapital + (cfg.maxCapital - cfg.minCapital) * ((confidence - 7/10) / (3/10))

/-- Trade direction (`Trade.type` in `agent-spawner.ts`). -/
inductive TradeDir where
  | buy
  | sell
deriving DecidableEq, Repr

/-- The token-address table `TOKEN_ADDRESSES` in `agent-spawner.ts`. -/
def TOKEN_ADDRESSES : List (String × String) :=
  [ ("ETH", "0x4200000000000000000000000000000000000006")
  , ("USDC", "0x833589fCD6eDb6E08f4c7C32D4f71b54bdA02913")
  , ("BASE", "0xfA980cEd6895AC314E7dE34Ef1bFAE90a5AdD21b")
  , ("AERO", "0x940181a94A35A4569E4529A3CDfB74e38FD98631") ]

/-- Direction chosen by `AgentSpawner.executeTrade` from the sign of the
sentiment: positive sentiment buys the token with ETH, negative sentiment
sells the token for ETH, zero sentiment does nothing (`null`). -/
def tradeAction (sentiment : ℚ) : Option TradeDir :=
  if 0 < sentiment then some TradeDir.buy
  else if sentiment < 0 then some TradeDir.sell
  else none

/-- Per-token decision of one `AgentSpawner.checkAndSpawnAgents` tick
(`agent-spawner.ts`, lines 1078-1105): with no analysis available the
token is skipped; otherwise the token proceeds to `executeTrade` and
`spawnAgent` exactly when `sentiment >= config.minSentiment` (signed, not
absolute value) and `confidence >= 0.7` (literal).  `some act` means the
tick proceeded and `executeTrade` took action `act`
(`tradeAction sentiment`); `none` means the token was skipped or
rejected, with no trade and no agent. -/
def checkTokenTick (cfg : SpawnConfig) (analysis : Option MarketAnalysis) :
    Option (Option TradeDir) :=
  match analysis with
  | none => none
  | some a =>
    if cfg.minSentiment ≤ a.sentiment ∧ (7:ℚ)/10 ≤ a.confidence then
      some (tradeAction a.sentiment)
    else
      none

/-- The `AgentSpawner.activeAgents` map (`Map<string, Set<string>>`,
token to agent ids); a missing key behaves as the empty set
(`this.activeAgents.get(token) || new Set()`). -/
structure SpawnerState where
  activeAgents : String → Finset String

/-- The spawner's initial state: no active agents for any token. -/
def emptySpawnerState : SpawnerState :=
  { activeAgents := fun _ => ∅ }

/-- `AgentSpawner.spawnAgent` (`agent-spawner.ts`, lines 1113-1129,
restricted to the `activeAgents` bookkeeping): if the token already has at
least `maxAgentsPerToken` active agents the attempt is rejected (`null`,
state unchanged); otherwise a fresh agent id (the `agentId` parameter,
generated in the source from the clock and a random suffix) is added to
the token's active set and returned.  The `analysis` argument is the
market analysis the source passes in; it does not influence the cap
check. -/
def spawnAgent (s : SpawnerState) (cfg : SpawnConfig) (token agentId : String)
    (_analysis : MarketAnalysis) : Option String × SpawnerState :=
  let existing := s.activeAgents token
  if cfg.maxAgentsPerToken ≤ existing.card then
    (none, s)
  else
    (some agentId,
      { activeAgents := fun t =>
          if t = token then insert agentId (s.activeAgents t)
          else s.activeAgents t })

/-- A sequence of spawn cycles for one token: each listed agent id is
offered to `spawnAgent` in turn (one id per tick of
`checkAndSpawnAgents`), threading the spawner state. -/
def spawnMany (cfg : SpawnConfig) (token : String) (a : MarketAnalysis)
    (ids : List String) (s : SpawnerState) : SpawnerState :=
  ids.foldl (fun st id => (spawnAgent st cfg token id a).2) s

/-- A recorded trade (`Trade` in `agent-spawner.ts`), restricted to the
fields `updatePosition` reads. -/
structure TradeRec where
  token : String
  type : TradeDir
  amount : ℚ
  price : ℚ
deriving DecidableEq, Repr

/-- A per-token position (`Position` in `agent-spawner.ts`); `lastUpdate`
and `tokenAddress` are bookkeeping the properties do not touch. -/
structure Position where
  amount : ℚ
  entryPrice : ℚ
  currentPrice : ℚ
  pnl : ℚ
deriving DecidableEq, Repr

/-- The position a token starts from when it has no entry in the
`positions` map (`agent-spawner.ts`, lines 949-958). -/
def emptyPosition : Position :=
  { amount := 0, entryPrice := 0, currentPrice := 0, pnl := 0 }

/-- `AgentSpawner.updatePosition` (`agent-spawner.ts`, lines 945-990) for
a token present in `TOKEN_ADDRESSES`: a buy adds the trade amount to the
position and recomputes the entry price as
`(oldAmount * oldEntry + amount * price) / newAmount`; a sell only
subtracts the amount.  Afterwards the current price is refreshed and the
PnL recomputed as `(currentPrice - entryPrice) * amount`.  The source
works on `BigInt` wei amounts (`parseEther`) with integer division; the
common `10^18` scale factor cancels in the entry-price quotient, and the
integer rounding is idealised as exact division over `ℚ` (the properties
are stated up to floating tolerance). -/
def updatePosition (currentPrice : ℚ) (pos : Position) (tr : TradeRec) : Position :=
  let pos' :=
    match tr.type with
    | TradeDir.buy =>
      let newAmount := pos.amount + tr.amount
      { pos with
        amount := newAmount
        entryPrice := (pos.amount * pos.entryPrice + tr.amount * tr.price) / newAmount }
    | TradeDir.sell =>
      { pos with amount := pos.amount - tr.amount }
  { pos' with
    currentPrice := currentPrice
    pnl := (currentPrice - pos'.entryPrice) * pos'.amount }

/-- The position resulting from recording a sequence of trades on one
token (each `_recordTrade` call invokes `updatePosition`), starting from
`pos`.  The current-price read is modelled by the `currentPrice`
parameter; it does not affect `amount` or `entryPrice`. -/
def applyTrades (currentPrice : ℚ) (pos : Position) (trs : List TradeRec) : Position :=
  trs.foldl (updatePosition currentPrice) pos

/-- Total amount of a trade list, `Σ aᵢ`. -/
def sumAmt (trs : List TradeRec) : ℚ :=
  (trs.map (fun t => t.amount)).sum

/-- Total cost of a trade list, `Σ aᵢ·pᵢ`. -/
def sumCost (trs : List TradeRec) : ℚ :=
  (trs.map (fun t => t.amount * t.price)).sum

/-- `HealthConfig` (`killswitch.ts`): loss ceiling (percent), inactivity
ceiling (hours), ROI floor (percent), check interval (milliseconds). -/
structure HealthConfig where
  maxLoss : ℚ
  maxInactivity : ℚ
  minROI : ℚ
  checkInterval : ℚ
deriving DecidableEq, Repr

/-- `AgentMetrics` (`killswitch.ts`), with the nested records flattened;
`totalVolume` is held as a number (the source round-trips it through a
string). -/
structure AgentMetrics where
  successful : ℕ
  failed : ℕ
  totalVolume : ℚ
  roi : ℚ
  drawdown : ℚ
  volatility : ℚ
  lastUpdate : ℚ
deriving DecidableEq, Repr

/-- One entry of the `HealthMonitor.agents` map: the supervised agent
(identified by its deployment time, address elided, and its allocated
`config.config.capital`), its health config, its last activity timestamp
and its metrics. -/
structure AgentData where
  deployedAt : ℚ
  capital : ℚ
  config : HealthConfig
  lastActivity : ℚ
  metrics : AgentMetrics
deriving DecidableEq, Repr

/-- Reason a health check reported unhealthy (the source formats these as
message strings; only the discriminating branch matters here). -/
inductive HealthReason where
  | inactive
  | roiBelowThreshold
  | lossExceedsThreshold
deriving DecidableEq, Repr

/-- `HealthStatus` (`killswitch.ts`), restricted to the verdict; the
`metrics` payload is a projection of `AgentData` and carries no extra
state. -/
structure HealthStatus where
  healthy : Bool
  reason : Option HealthReason
deriving DecidableEq, Repr

/-- `HealthMonitor._checkHealth` (`killswitch.ts`, lines 119-188): checks,
in this order, inactivity (`(now - lastActivity) / 3600000` hours strictly
above `maxInactivity`), the ROI floor (`roi < minROI`) and the loss
ceiling (`drawdown > maxLoss`), reporting unhealthy with the first
tripping condition's reason; if none trips the agent is healthy. -/
def checkHealth (now : ℚ) (d : AgentData) : HealthStatus :=
  let inactivityHours := (now - d.lastActivity) / 3600000
  if d.config.maxInactivity < inactivityHours then
    { healthy := false, reason := some HealthReason.inactive }
  else if d.metrics.roi < d.config.minROI then
    { healthy := false, reason := some HealthReason.roiBelowThreshold }
  else if d.config.maxLoss < d.metrics.drawdown then
    { healthy := false, reason := some HealthReason.lossExceedsThreshold }
  else
    { healthy := true, reason := none }

/-- `HealthMonitor._updateMetrics` (`killswitch.ts`, lines 190-218): reads
the agent's current on-chain balance (the `currentBalance` parameter),
recomputes `roi = (currentBalance - capital) / capital * 100` against the
initially allocated capital, stamps `lastUpdate`, and sets
`drawdown = |roi|` when the new roi is negative (otherwise the stored
drawdown is left unchanged). -/
def updateMetrics (now currentBalance : ℚ) (d : AgentData) : AgentData :=
  let roi := (currentBalance - d.capital) / d.capital * 100
  let m := { d.metrics with roi := roi, lastUpdate := now }
  let m' := if roi < 0 then { m with drawdown := |roi| } else m
  { d with metrics := m' }

/-- The `HealthMonitor.agents` map, agent id to its record; `none` means
the id is not supervised. -/
def Registry : Type :=
  String → Option AgentData

/-- The registry with no supervised agents. -/
def emptyRegistry : Registry :=
  fun _ => none

/-- The metrics `HealthMonitor.monitorAgent` installs at registration:
zero trade counters and volume, `roi = 0`, `drawdown = 0`,
`volatility = 0`. -/
def initialMetrics (now : ℚ) : AgentMetrics :=
  { successful := 0, failed := 0, totalVolume := 0
    roi := 0, drawdown := 0, volatility := 0, lastUpdate := now }

/-- `HealthMonitor.monitorAgent` (`killswitch.ts`, lines 56-83): registers
the agent with `lastActivity = now` and the initial metrics, then starts
its monitoring interval. -/
def monitorAgent (r : Registry) (id : String) (deployedAt capital : ℚ)
    (cfg : HealthConfig) (now : ℚ) : Registry :=
  fun k =>
    if k = id then
      some { deployedAt := deployedAt, capital := capital, config := cfg
             lastActivity := now, metrics := initialMetrics now }
    else r k

/-- `HealthMonitor.killAgent` (`killswitch.ts`, lines 220-243): if the id
is not supervised the call returns immediately (no-op); otherwise it
withdraws funds best-effort, logs the termination and deletes the entry
from the map. -/
def killAgent (r : Registry) (id : String) : Registry :=
  match r id with
  | none => r
  | some _ => fun k => if k = id then none else r k

/-- One iteration of the per-agent monitoring interval installed by
`HealthMonitor._startMonitoring` (`killswitch.ts`, lines 89-117): it first
runs `_checkHealth` on the agent's current record; if unhealthy it calls
`killAgent` (removing the agent) and cancels the interval; only then does
it run `_updateMetrics`, which is a no-op for a just-killed agent (the map
lookup fails).  `currentBalance` is the balance the update's external read
returns for this tick. -/
def healthTick (r : Registry) (id : String) (now currentBalance : ℚ) : Registry :=
  match r id with
  | none => r
  | some d =>
    if (checkHealth now d).healthy then
      fun k => if k = id then some (updateMetrics now currentBalance d) else r k
    else
      killAgent r id

/-- `HealthMonitor.recordTrade` (`killswitch.ts`, lines 273-289): for an
unsupervised id the call returns immediately without touching anything;
otherwise it bumps the success or failure counter, accumulates the
volume, and refreshes `lastActivity` to now. -/
def recordTrade (r : Registry) (id : String) (successful : Bool) (volume : ℚ)
    (now : ℚ) : Registry :=
  match r id with
  | none => r
  | some d =>
    let m := d.metrics
    let m' :=
      if successful then { m with successful := m.successful + 1 }
      else { m with failed := m.failed + 1 }
    let d' := { d with
      metrics := { m' with totalVolume := m'.totalVolume + volume }
      lastActivity := now }
    fun k => if k = id then some d' else r k

/-- A sample bullish, high-confidence market analysis used to instantiate
theorems at concrete inputs. -/
def sampleAnalysis : MarketAnalysis :=
  { sentiment := 3/4
    confidence := 9/10
    reasoning := []
    marketCondition := MarketCondition.bullish
    suggestedActions := []
    tweets := []
    totalEngagement := 0
    timestamp := 0 }

/-- A strongly bearish, high-confidence market analysis used as a
concrete input. -/
def bearishAnalysis : MarketAnalysis :=
  { sentiment := -(1/2)
    confidence := 9/10
    reasoning := []
    marketCondition := MarketCondition.bearish
    suggestedActions := []
    tweets := []
    totalEngagement := 0
    timestamp := 0 }

/-- A health config used for concrete instantiations: loss ceiling 20%,
inactivity ceiling 1000 hours, ROI floor −1000% (so that neither the ROI
floor nor — initially — the loss ceiling interferes), checks every
minute. -/
def lenientHealthConfig : HealthConfig :=
  { maxLoss := 20, maxInactivity := 1000, minROI := -1000, checkInterval := 60000 }

/-- The record `monitorAgent` installs for an agent registered at time 0
with capital 1 under `lenientHealthConfig`. -/
def freshAgentData : AgentData :=
  { deployedAt := 0, capital := 1, config := lenientHealthConfig
    lastActivity := 0, metrics := initialMetrics 0 }

/-- A registry holding exactly the freshly registered agent `"agent1"`. -/
def freshRegistry : Registry :=
  monitorAgent emptyRegistry "agent1" 0 1 lenientHealthConfig 0

/-- An agent whose metrics are comfortably within bounds (roi 100% above
the 15% floor, drawdown 0 below the 20% ceiling) but whose last activity
is stale. -/
def healthyButInactiveData : AgentData :=
  { deployedAt := 0
    capital := 1
    config := { maxLoss := 20, maxInactivity := 2, minROI := 15, checkInterval := 60000 }
    lastActivity := 0
    metrics := { successful := 5, failed := 0, totalVolume := 10
                 roi := 100, drawdown := 0, volatility := 0, lastUpdate := 0 } }

/-- A registry holding exactly the stale agent `"agent2"`. -/
def inactiveRegistry : Registry :=
  fun k => if k = "agent2" then some healthyButInactiveData else none

/-- A concrete buy trade: 1 unit at price 10. -/
def buyTrade1 : TradeRec :=
  { token := "ETH", type := TradeDir.buy, amount := 1, price := 10 }

/-- A concrete buy trade: 3 units at price 20. -/
def buyTrade2 : TradeRec :=
  { token := "ETH", type := TradeDir.buy, amount := 3, price := 20 }

/-!
Theorems.  Each claim Ci about the specification is settled by the
theorems below.
-/

/-- C1 counterexample: the claim states that `Judge.evaluateOpportunity`
returns `shouldSpawn = true` iff `|sentiment| ≥ minSentimentThreshold`
(0.3) and `confidence ≥ minConfidenceThreshold` (0.7).  At the judgment
with sentiment 0 and confidence 0 — which violates both thresholds — the
code still returns `shouldSpawn = true`, so the claimed equivalence is
false at this input. -/
theorem C1_cex_evaluateOpportunity_spawns_below_thresholds :
    (Judge.evaluateOpportunity
      { capitalRequired := 1/10
        opportunity :=
          { token := "ETH", risk := 5, confidence := 0, sentiment := 0
            marketCondition := MarketCondition.neutral } }).shouldSpawn = true
    ∧ ¬((3:ℚ)/10 ≤ |(0:ℚ)| ∧ (7:ℚ)/10 ≤ (0:ℚ)) := by
  refine ⟨rfl, ?_⟩
  norm_num

/-- C1 amended: `Judge.evaluateOpportunity` is a placeholder that returns
`shouldSpawn = true` and `confidence = 0.78` for every symbol and every
judgment, with `capital = params.capitalRequired`; the
sentiment/confidence threshold filtering happens in its callers, not in
the evaluator. -/
theorem C1_evaluateOpportunity_always_spawns (params : EvaluationParams) :
    (Judge.evaluateOpportunity params).shouldSpawn = true ∧
    (Judge.evaluateOpportunity params).confidence = 78/100 ∧
    (Judge.evaluateOpportunity params).capital = params.capitalRequired :=
  ⟨rfl, rfl, rfl⟩

/-- C2 counterexample: the claim states the recommended capital lies in
`[minCapital, maxCapital]` for every confidence and equals `minCapital`
for confidence below 0.7.  With the default config
(`minCapital = 0.1`, `maxCapital = 1`) and confidence 0.4 the unclamped
linear formula yields −0.8, which is below `minCapital` and not equal to
it. -/
theorem C2_cex_positionSize_below_min :
    calculatePositionSize defaultSpawnConfig (2/5) = -(4/5) ∧
    ¬(defaultSpawnConfig.minCapital ≤ calculatePositionSize defaultSpawnConfig (2/5)) ∧
    calculatePositionSize defaultSpawnConfig (2/5) ≠ defaultSpawnConfig.minCapital := by
  norm_num [calculatePositionSize, defaultSpawnConfig]

/-- C2 amended: for confidence in `[0.7, 1.0]` (the only range in which
the caller `checkAndSpawnAgents` invokes it) and `minCapital ≤
maxCapital`, the recommended capital lies within
`[minCapital, maxCapital]`, is monotonically non-decreasing in
confidence, and scales linearly from `minCapital` at confidence 0.7 to
`maxCapital` at confidence 1; for confidence below 0.7 the unclamped
formula extrapolates below `minCapital` rather than returning
`minCapital`. -/
theorem C2_positionSize_bounds_mono (cfg : SpawnConfig)
    (hmm : cfg.minCapital ≤ cfg.maxCapital) (c c' : ℚ)
    (hc : 7/10 ≤ c) (hcc : c ≤ c') (hc' : c' ≤ 1) :
    cfg.minCapital ≤ calculatePositionSize cfg c ∧
    calculatePositionSize cfg c ≤ cfg.maxCapital ∧
    calculatePositionSize cfg c ≤ calculatePositionSize cfg c' ∧
    calculatePositionSize cfg (7/10) = cfg.minCapital ∧
    calculatePositionSize cfg 1 = cfg.maxCapital := by
  have hc1 : c ≤ 1 := hcc.trans hc'
  unfold calculatePositionSize
  refine ⟨?_, ?_, ?_, by norm_num, by norm_num⟩
  · nlinarith [mul_nonneg (sub_nonneg.2 hmm) (sub_nonneg.2 hc)]
  · nlinarith [mul_nonneg (sub_nonneg.2 hmm) (sub_nonneg.2 hc1)]
  · nlinarith [mul_nonneg (sub_nonneg.2 hmm) (sub_nonneg.2 hcc)]

/-- C2 witness: the amended statement instantiated with the default
config at confidences 0.8 and 0.9. -/
theorem C2_positionSize_bounds_mono_witness :
    defaultSpawnConfig.minCapital ≤ calculatePositionSize defaultSpawnConfig (4/5) ∧
    calculatePositionSize defaultSpawnConfig (4/5) ≤ defaultSpawnConfig.maxCapital ∧
    calculatePositionSize defaultSpawnConfig (4/5) ≤
      calculatePositionSize defaultSpawnConfig (9/10) ∧
    calculatePositionSize defaultSpawnConfig (7/10) = defaultSpawnConfig.minCapital ∧
    calculatePositionSize defaultSpawnConfig 1 = defaultSpawnConfig.maxCapital :=
  C2_positionSize_bounds_mono defaultSpawnConfig
    (by norm_num [defaultSpawnConfig]) (4/5) (9/10)
    (by norm_num) (by norm_num) (by norm_num)

/-- Helper: spawning a duplicate-free list of fresh agent ids that fits
under the cap adds exactly those ids to the token's active set. -/
lemma spawnMany_union (cfg : SpawnConfig) (token : String) (a : MarketAnalysis) :
    ∀ (ids : List String) (s : SpawnerState), ids.Nodup →
      (∀ id ∈ ids, id ∉ s.activeAgents token) →
      (s.activeAgents token).card + ids.length ≤ cfg.maxAgentsPerToken →
      (spawnMany cfg token a ids s).activeAgents token
        = s.activeAgents token ∪ ids.toFinset := by
  intro ids
  induction ids with
  | nil =>
    intro s _ _ _
    simp [spawnMany]
  | cons id rest ih =>
    intro s hnd hfresh hcard
    have hlt : (s.activeAgents token).card < cfg.maxAgentsPerToken := by
      simp only [List.length_cons] at hcard
      omega
    have hstep : (spawnAgent s cfg token id a).2.activeAgents token
        = insert id (s.activeAgents token) := by
      simp [spawnAgent, Nat.not_le.2 hlt]
    have hidfresh : id ∉ s.activeAgents token := hfresh id (by simp)
    have hcardstep : ((spawnAgent s cfg token id a).2.activeAgents token).card
        = (s.activeAgents token).card + 1 := by
      rw [hstep, Finset.card_insert_of_not_mem hidfresh]
    have hrest := ih (spawnAgent s cfg token id a).2 (List.Nodup.of_cons hnd)
      (by
        intro id' hid'
        rw [hstep]
        simp only [Finset.mem_insert, not_or]
        constructor
        · rintro rfl
          exact (List.nodup_cons.1 hnd).1 hid'
        · exact hfresh id' (List.mem_cons_of_mem _ hid'))
      (by
        rw [hcardstep]
        simp only [List.length_cons] at hcard
        omega)
    calc (spawnMany cfg token a (id :: rest) s).activeAgents token
        = (spawnMany cfg token a rest (spawnAgent s cfg token id a).2).activeAgents token := by
          simp [spawnMany]
      _ = (spawnAgent s cfg token id a).2.activeAgents token ∪ rest.toFinset := hrest
      _ = s.activeAgents token ∪ (id :: rest).toFinset := by
          rw [hstep]
          simp [Finset.insert_union, Finset.union_insert]

/-- C3: with the token's active set initially empty, a run of
`maxAgentsPerToken` spawn cycles with distinct agent ids all succeed and
fill the set to exactly `maxAgentsPerToken`; in that state every further
spawn attempt is rejected (`null`) and changes nothing, whatever the
sentiment and confidence of its analysis.  Moreover a single `spawnAgent`
call never pushes any token's active set above `maxAgentsPerToken`, so
the bound is an invariant of the spawn path. -/
theorem C3_maxAgentsPerToken_cap (cfg : SpawnConfig) (token : String)
    (a : MarketAnalysis) (ids : List String) (s : SpawnerState)
    (hempty : s.activeAgents token = ∅)
    (hnd : ids.Nodup) (hlen : ids.length = cfg.maxAgentsPerToken) :
    ((spawnMany cfg token a ids s).activeAgents token).card = cfg.maxAgentsPerToken ∧
    (∀ (id : String) (a' : MarketAnalysis),
      (spawnAgent (spawnMany cfg token a ids s) cfg token id a').1 = none ∧
      (spawnAgent (spawnMany cfg token a ids s) cfg token id a').2
        = spawnMany cfg token a ids s) ∧
    (∀ (s' : SpawnerState) (tok id : String) (a' : MarketAnalysis) (t : String),
      (s'.activeAgents t).card ≤ cfg.maxAgentsPerToken →
      (((spawnAgent s' cfg tok id a').2).activeAgents t).card ≤ cfg.maxAgentsPerToken) := by
  have hcard : ((spawnMany cfg token a ids s).activeAgents token).card
      = cfg.maxAgentsPerToken := by
    rw [spawnMany_union cfg token a ids s hnd
      (by intro id _; rw [hempty]; exact Finset.not_mem_empty id)
      (by rw [hempty]; simpa using hlen.le)]
    rw [hempty]
    simpa [List.toFinset_card_of_nodup hnd] using hlen
  refine ⟨hcard, ?_, ?_⟩
  · intro id a'
    constructor <;> simp [spawnAgent, hcard]
  · intro s' tok id a' t hle
    by_cases hfull : cfg.maxAgentsPerToken ≤ (s'.activeAgents tok).card
    · simpa [spawnAgent, hfull] using hle
    · simp only [spawnAgent, if_neg (by omega : ¬cfg.maxAgentsPerToken ≤ (s'.activeAgents tok).card)]
      by_cases ht : t = tok
      · subst ht
        simp only [if_pos rfl]
        calc (insert id (s'.activeAgents t)).card
            ≤ (s'.activeAgents t).card + 1 := Finset.card_insert_le _ _
          _ ≤ cfg.maxAgentsPerToken := by omega
      · simpa [ht] using hle

/-- C3 witness: the cap statement instantiated with the default config
(`maxAgentsPerToken = 3`), three distinct ids spawned from the empty
state, and a fourth attempt rejected. -/
theorem C3_maxAgentsPerToken_cap_witness :
    ((spawnMany defaultSpawnConfig "ETH" sampleAnalysis ["a1", "a2", "a3"]
        emptySpawnerState).activeAgents "ETH").card
      = defaultSpawnConfig.maxAgentsPerToken ∧
    (spawnAgent (spawnMany defaultSpawnConfig "ETH" sampleAnalysis ["a1", "a2", "a3"]
        emptySpawnerState) defaultSpawnConfig "ETH" "a4" sampleAnalysis).1 = none := by
  have h := C3_maxAgentsPerToken_cap defaultSpawnConfig "ETH" sampleAnalysis
    ["a1", "a2", "a3"] emptySpawnerState rfl (by decide) rfl
  exact ⟨h.1, (h.2.1 "a4" sampleAnalysis).1⟩

/-- C4 counterexample: the claim states a `checkAndSpawnAgents` tick
rejects exactly when `|sentiment| < minSentimentThreshold` or
`confidence < minConfidenceThreshold`, and in particular that a token
with `sentiment ≤ -minSentimentThreshold` and high confidence proceeds to
a sell trade.  With the default config and an analysis with sentiment
−0.5 (so `|sentiment| = 0.5 ≥ 0.3`) and confidence 0.9, the tick rejects
the token (the code compares the signed sentiment against
`minSentiment`), so no sell trade happens. -/
theorem C4_cex_negative_sentiment_rejected :
    checkTokenTick defaultSpawnConfig (some bearishAnalysis) = none ∧
    bearishAnalysis.sentiment ≤ -defaultSpawnConfig.minSentiment ∧
    (7:ℚ)/10 ≤ bearishAnalysis.confidence := by
  refine ⟨?_, by norm_num [bearishAnalysis, defaultSpawnConfig],
    by norm_num [bearishAnalysis]⟩
  norm_num [checkTokenTick, bearishAnalysis, defaultSpawnConfig]

/-- C4 amended: a `checkAndSpawnAgents` tick rejects a token with
available analysis exactly when the signed sentiment (not its absolute
value) is below `minSentiment` or the confidence is below the literal
0.7; when it proceeds, the trade direction is the sign of the sentiment
(positive buys, negative sells, zero is a no-op) — so a token with
`sentiment ≤ -minSentiment < 0` is always rejected at this step and the
tick never reaches a sell.  A token without analysis is skipped. -/
theorem C4_tick_signed_threshold (cfg : SpawnConfig) (a : MarketAnalysis) :
    (checkTokenTick cfg (some a) = none ↔
      a.sentiment < cfg.minSentiment ∨ a.confidence < 7/10) ∧
    (cfg.minSentiment ≤ a.sentiment → 7/10 ≤ a.confidence →
      checkTokenTick cfg (some a) = some (tradeAction a.sentiment)) ∧
    (0 < a.sentiment → tradeAction a.sentiment = some TradeDir.buy) ∧
    (a.sentiment < 0 → tradeAction a.sentiment = some TradeDir.sell) ∧
    tradeAction 0 = none ∧
    checkTokenTick cfg none = none := by
  refine ⟨?_, ?_, ?_, ?_, by norm_num [tradeAction], rfl⟩
  · by_cases hs : cfg.minSentiment ≤ a.sentiment
    · by_cases hc : (7:ℚ)/10 ≤ a.confidence
      · simp [checkTokenTick, hs, hc, not_lt.2 hs, not_lt.2 hc]
      · simp [checkTokenTick, hc, not_le.1 hc]
    · simp [checkTokenTick, hs, not_le.1 hs]
  · intro h1 h2
    simp [checkTokenTick, h1, h2]
  · intro h
    simp [tradeAction, h]
  · intro h
    simp [tradeAction, asymm h, h]

/-- C4 witness: the amended statement at the default config and a bullish
analysis (sentiment 0.75, confidence 0.9): the tick proceeds and the
action is a buy. -/
theorem C4_tick_signed_threshold_witness :
    checkTokenTick defaultSpawnConfig (some sampleAnalysis)
      = some (tradeAction sampleAnalysis.sentiment) ∧
    tradeAction sampleAnalysis.sentiment = some TradeDir.buy := by
  have h := C4_tick_signed_threshold defaultSpawnConfig sampleAnalysis
  exact ⟨h.2.1 (by norm_num [defaultSpawnConfig, sampleAnalysis])
      (by norm_num [sampleAnalysis]),
    h.2.2.1 (by norm_num [sampleAnalysis])⟩

/-- C5 counterexample: the claim states every health check evaluates the
ROI-floor and loss-ceiling conditions against the roi/drawdown recomputed
from the current balance on that same tick, including the first check
after registration.  Take the freshly registered agent (capital 1,
initial roi 0, drawdown 0, `maxLoss = 20`) and a tick whose balance read
returns 0.5, so the same-tick recomputation gives roi −50 and drawdown 50
— a loss-ceiling violation that would terminate the agent.  The code's
check runs before the metrics update, sees the stored roi 0 / drawdown 0,
reports healthy, and the agent survives the tick. -/
theorem C5_cex_first_check_uses_registration_metrics :
    freshRegistry "agent1" = some freshAgentData ∧
    (checkHealth 0 freshAgentData).healthy = true ∧
    (checkHealth 0 (updateMetrics 0 (1/2) freshAgentData)).healthy = false ∧
    healthTick freshRegistry "agent1" 0 (1/2) "agent1"
      = some (updateMetrics 0 (1/2) freshAgentData) := by
  have h1 : freshRegistry "agent1" = some freshAgentData := by
    simp [freshRegistry, monitorAgent, freshAgentData]
  have h2 : (checkHealth 0 freshAgentData).healthy = true := by
    norm_num [checkHealth, freshAgentData, lenientHealthConfig, initialMetrics]
  refine ⟨h1, h2, ?_, ?_⟩
  · norm_num [checkHealth, updateMetrics, freshAgentData, lenientHealthConfig,
      initialMetrics, abs_of_neg]
  · simp [healthTick, h1, h2]

/-- C5 amended: the monitoring tick evaluates `_checkHealth` on the
record as stored (the metrics written by the previous tick's update, or
the registration-time `roi = 0`, `drawdown = 0` on the first check);
`_updateMetrics` — which recomputes
`roi = (currentBalance − capital) / capital · 100` against the initially
allocated capital — runs only after the check, and only a surviving agent
receives the update (a killed agent is already removed). -/
theorem C5_check_before_update (r : Registry) (id : String) (d : AgentData)
    (now bal : ℚ) (hr : r id = some d) :
    ((checkHealth now d).healthy = true →
      healthTick r id now bal id = some (updateMetrics now bal d) ∧
      (updateMetrics now bal d).metrics.roi = (bal - d.capital) / d.capital * 100) ∧
    ((checkHealth now d).healthy = false →
      healthTick r id now bal id = none) := by
  constructor
  · intro hh
    refine ⟨by simp [healthTick, hr, hh], ?_⟩
    unfold updateMetrics
    by_cases hneg : (bal - d.capital) / d.capital * 100 < 0 <;> simp [hneg]
  · intro hh
    simp [healthTick, hr, hh, killAgent]

/-- C5 witness: the amended statement at the freshly registered agent and
a tick with balance 0.5: the check (healthy on the stored metrics) comes
first, and the post-check update stores roi −50. -/
theorem C5_check_before_update_witness :
    healthTick freshRegistry "agent1" 0 (1/2) "agent1"
      = some (updateMetrics 0 (1/2) freshAgentData) ∧
    (updateMetrics 0 (1/2) freshAgentData).metrics.roi
      = ((1/2) - freshAgentData.capital) / freshAgentData.capital * 100 := by
  have h := C5_check_before_update freshRegistry "agent1" freshAgentData 0 (1/2)
    (by simp [freshRegistry, monitorAgent, freshAgentData])
  exact h.1 (by norm_num [checkHealth, freshAgentData, lenientHealthConfig, initialMetrics])

/-- C6: a health check on an agent whose last activity is more than
`maxInactivity` hours old reports unhealthy with the inactivity reason —
whatever the stored roi and drawdown are, because the inactivity
condition is evaluated before the ROI floor and the loss ceiling — and
the tick then kills the agent, removing it from the registry. -/
theorem C6_inactivity_terminates_first (r : Registry) (id : String)
    (d : AgentData) (now bal : ℚ) (hr : r id = some d)
    (hin : d.config.maxInactivity < (now - d.lastActivity) / 3600000) :
    checkHealth now d
      = { healthy := false, reason := some HealthReason.inactive } ∧
    healthTick r id now bal id = none := by
  have hch : checkHealth now d
      = { healthy := false, reason := some HealthReason.inactive } := by
    simp [checkHealth, hin]
  refine ⟨hch, ?_⟩
  simp [healthTick, hr, hch, killAgent]

/-- C6 witness: the inactivity statement at the concrete agent whose roi
(100%) is above the 15% floor and whose drawdown (0%) is below the 20%
ceiling, three hours after its last activity with a two-hour
`maxInactivity`: the check reports inactive and the tick removes the
agent. -/
theorem C6_inactivity_terminates_first_witness :
    checkHealth 10800000 healthyButInactiveData
      = { healthy := false, reason := some HealthReason.inactive } ∧
    healthTick inactiveRegistry "agent2" 10800000 2 "agent2" = none := by
  have h := C6_inactivity_terminates_first inactiveRegistry "agent2"
    healthyButInactiveData 10800000 2
    (by simp [inactiveRegistry])
    (by norm_num [healthyButInactiveData])
  exact h

/-- C7 counterexample: the claim states that for a symbol whose sentiment
source yields an empty posts list, the analysis step returns the neutral
low-confidence fallback judgment rather than yielding no judgment, so the
pipeline reaches the evaluator.  With an empty tweet list (and a failed
backend call, as for an unknown symbol) `getMarketAnalysis` returns
`null` — no judgment at all — and the tick therefore skips the token at
the availability check, never reaching the evaluator. -/
theorem C7_cex_empty_posts_yield_no_judgment :
    getMarketAnalysis [] none 0 = none ∧
    getMarketAnalysis [] none 0 ≠ some { fallbackAnalysis with
      tweets := [], totalEngagement := 0, timestamp := 0 } := by
  constructor
  · rfl
  · intro h
    simp [getMarketAnalysis, analyzeSentiment] at h

/-- C7 amended: for a symbol whose sentiment source yields an empty posts
list, `getMarketAnalysis` yields no judgment (`null`) — for every backend
outcome — and the tick skips the token with no trade and no agent, so the
tick completes without error but never reaches the evaluator.  The
neutral low-confidence fallback judgment (sentiment 0, confidence 0.5,
neutral condition) arises only from a failed backend call; with a
non-empty posts list and a failed backend the pipeline does reach the
threshold step with confidence 0.5 and rejects the token (0.5 < 0.7). -/
theorem C7_empty_posts_skip_fallback_reject (backend : Option VeniceAnalysis)
    (now : ℚ) (cfg : SpawnConfig) (t : MockTweet) (ts : List MockTweet) :
    getMarketAnalysis [] backend now = none ∧
    checkTokenTick cfg (getMarketAnalysis [] backend now) = none ∧
    (getMarketAnalysis (t :: ts) none now).map
        (fun m => (m.sentiment, m.confidence, m.marketCondition))
      = some (0, 1/2, MarketCondition.neutral) ∧
    checkTokenTick defaultSpawnConfig (getMarketAnalysis (t :: ts) none now)
      = none := by
  refine ⟨rfl, rfl, ?_, ?_⟩
  · simp [getMarketAnalysis, analyzeSentiment, analyzeSentimentAndMarket,
      fallbackAnalysis]
  · have hm : (getMarketAnalysis (t :: ts) none now).map
        (fun m => (m.sentiment, m.confidence))
      = some (0, 1/2) := by
      simp [getMarketAnalysis, analyzeSentiment, analyzeSentimentAndMarket,
        fallbackAnalysis]
    cases hga : getMarketAnalysis (t :: ts) none now with
    | none => rfl
    | some m =>
      rw [hga] at hm
      simp only [Option.map_some', Option.some_inj, Prod.mk.injEq] at hm
      simp [checkTokenTick, hm.1, hm.2, defaultSpawnConfig]

/-- Helper: folding buy trades through `updatePosition` accumulates the
total amount and maintains `entryPrice · amount = ` total cost. -/
lemma applyTrades_amount_cost (cp : ℚ) :
    ∀ (trs : List TradeRec) (pos : Position), 0 ≤ pos.amount →
      (∀ t ∈ trs, t.type = TradeDir.buy ∧ 0 < t.amount) →
      (applyTrades cp pos trs).amount = pos.amount + sumAmt trs ∧
      (applyTrades cp pos trs).entryPrice * (applyTrades cp pos trs).amount
        = pos.entryPrice * pos.amount + sumCost trs := by
  intro trs
  induction trs with
  | nil =>
    intro pos _ _
    simp [applyTrades, sumAmt, sumCost]
  | cons t rest ih =>
    intro pos hpos hbuy
    obtain ⟨hty, hamt⟩ := hbuy t (List.mem_cons_self t rest)
    have hAmt : (updatePosition cp pos t).amount = pos.amount + t.amount := by
      simp [updatePosition, hty]
    have hEnt : (updatePosition cp pos t).entryPrice
        = (pos.amount * pos.entryPrice + t.amount * t.price) / (pos.amount + t.amount) := by
      simp [updatePosition, hty]
    have hpos' : (0:ℚ) < pos.amount + t.amount := by linarith
    have happ : applyTrades cp pos (t :: rest)
        = applyTrades cp (updatePosition cp pos t) rest := by
      simp [applyTrades]
    obtain ⟨ih1, ih2⟩ := ih (updatePosition cp pos t)
      (by rw [hAmt]; linarith)
      (fun t' ht' => hbuy t' (List.mem_cons_of_mem _ ht'))
    constructor
    · rw [happ, ih1, hAmt]
      simp [sumAmt]
      ring
    · rw [happ, ih2, hEnt, hAmt,
        div_mul_cancel₀ _ (ne_of_gt hpos')]
      simp [sumCost]
      ring

/-- C8: starting from an empty position, recording a non-empty sequence
of buy trades with positive amounts `aᵢ` at prices `pᵢ` leaves the
position with `amount = Σ aᵢ` and
`entryPrice = (Σ aᵢ·pᵢ) / (Σ aᵢ)`, the volume-weighted average price
(exactly, in the idealised rational arithmetic). -/
theorem C8_entryPrice_is_vwap (cp : ℚ) (trs : List TradeRec)
    (hne : trs ≠ [])
    (hbuy : ∀ t ∈ trs, t.type = TradeDir.buy ∧ 0 < t.amount) :
    (applyTrades cp emptyPosition trs).amount = sumAmt trs ∧
    (applyTrades cp emptyPosition trs).entryPrice = sumCost trs / sumAmt trs := by
  obtain ⟨h1, h2⟩ := applyTrades_amount_cost cp trs emptyPosition
    (by norm_num [emptyPosition]) hbuy
  have hA : (applyTrades cp emptyPosition trs).amount = sumAmt trs := by
    rw [h1]
    simp [emptyPosition]
  have hpos : 0 < sumAmt trs := by
    cases trs with
    | nil => exact absurd rfl hne
    | cons t rest =>
      have h0 : 0 < t.amount := (hbuy t (List.mem_cons_self t rest)).2
      have hrest : 0 ≤ (rest.map (fun u => u.amount)).sum :=
        List.sum_nonneg (by
          intro x hx
          obtain ⟨u, hu, rfl⟩ := List.mem_map.1 hx
          exact (hbuy u (List.mem_cons_of_mem _ hu)).2.le)
      simp only [sumAmt, List.map_cons, List.sum_cons]
      linarith
  refine ⟨hA, ?_⟩
  rw [eq_div_iff (ne_of_gt hpos), ← hA]
  rw [h2]
  simp [emptyPosition]

/-- C8 witness: buying 1 unit at price 10 then 3 units at price 20 yields
amount 4 and entry price 70/4 = 17.5, the volume-weighted average. -/
theorem C8_entryPrice_is_vwap_witness :
    (applyTrades 0 emptyPosition [buyTrade1, buyTrade2]).amount
      = sumAmt [buyTrade1, buyTrade2] ∧
    (applyTrades 0 emptyPosition [buyTrade1, buyTrade2]).entryPrice
      = sumCost [buyTrade1, buyTrade2] / sumAmt [buyTrade1, buyTrade2] :=
  C8_entryPrice_is_vwap 0 [buyTrade1, buyTrade2] (by simp)
    (by
      intro t ht
      simp only [List.mem_cons, List.not_mem_nil, or_false] at ht
      rcases ht with rfl | rfl <;>
        exact ⟨rfl, by norm_num [buyTrade1, buyTrade2]⟩)

/-- C9: `killAgent` on an id absent from the registry (in particular,
after a completed kill of that id) is a no-op: it returns without
raising, removes nothing, and leaves the registry exactly as it was; in
particular a second `killAgent` on the same id changes nothing beyond the
first. -/
theorem C9_killAgent_idempotent (r : Registry) (id : String) :
    killAgent (killAgent r id) id = killAgent r id ∧
    (r id = none → killAgent r id = r) := by
  have hnone : ∀ (s : Registry), s id = none → killAgent s id = s := by
    intro s hs
    simp [killAgent, hs]
  refine ⟨?_, hnone r⟩
  cases h : r id with
  | none =>
    rw [hnone r h]
    exact hnone r h
  | some d =>
    apply hnone
    simp [killAgent, h]

/-- C9 witness: killing a registered agent and then killing the same id
again leaves the registry where the first kill left it, and a kill on an
empty registry leaves it empty. -/
theorem C9_killAgent_idempotent_witness :
    killAgent (killAgent inactiveRegistry "agent2") "agent2"
      = killAgent inactiveRegistry "agent2" ∧
    killAgent emptyRegistry "agent2" = emptyRegistry :=
  ⟨(C9_killAgent_idempotent inactiveRegistry "agent2").1,
    (C9_killAgent_idempotent emptyRegistry "agent2").2 rfl⟩

/-- C10: `recordTrade` for an agent id not in the registry returns
without raising and changes no state at all — no record is created and no
other agent's counters, volume or activity are touched — for every
success flag and volume. -/
theorem C10_recordTrade_unknown_id_noop (r : Registry) (id : String)
    (successful : Bool) (volume now : ℚ) (h : r id = none) :
    recordTrade r id successful volume now = r := by
  simp [recordTrade, h]

/-- C10 witness: recording a trade for an id that is not supervised
leaves a concrete one-agent registry untouched. -/
theorem C10_recordTrade_unknown_id_noop_witness :
    recordTrade inactiveRegistry "ghost" true 5 1000 = inactiveRegistry :=
  C10_recordTrade_unknown_id_noop inactiveRegistry "ghost" true 5 1000
    (by simp [inactiveRegistry])

end SocialSage
